import Mathlib

/-!
Verification of the BlueLock drone-analysis numeric core.

The definitions below are a shallow embedding of the Python sources
src/drone_analysis/utils/image_processor.py, src/drone_analysis/utils/ai_model.py
and src/drone_analysis/config.py.  Machine floating-point arithmetic is embedded
as exact rational arithmetic; numpy arrays are embedded as lists of lists; Python
exceptions are embedded as Option/Except results.  External OpenCV and TensorFlow
routines that are called by the sources are embedded from their documented
behaviour where the claims depend on them (the 5x5 morphological operators) and
are modelled from the specification where they do not (region extraction and the
region-area measure, the small-window blur, the classifier inference); each such
definition carries a comment saying so.
-/

/-- One RGB pixel: channel 0 is red, channel 1 is green, channel 2 is blue,
as in image_processor.calculate_ndvi which reads image[:, :, 0] as red and
image[:, :, 1] as green.  Intensities are non-negative integers. -/
structure Pixel where
  r : ℕ
  g : ℕ
  b : ℕ
deriving DecidableEq, Repr

/-- A raster image: a list of rows of pixels (numpy 2-D array of 3-tuples). -/
abbrev RasterImage := List (List Pixel)

/-- A 2-D grid of rational values (numpy float array). -/
abbrev Grid := List (List ℚ)

/-- A 2-D binary mask (numpy boolean / uint8 array, tested with > 0). -/
abbrev Mask := List (List Bool)

/-- Row length of the first row: numpy shape[1] of a rectangular 2-D array. -/
def gridWidth {α : Type} (m : List (List α)) : ℕ := (m.headD []).length

/-- Sum of all entries of a grid. -/
def gridSum (g : Grid) : ℚ := (g.map (fun row => row.sum)).sum

/-- Number of entries of a grid. -/
def gridCount (g : Grid) : ℕ := (g.map List.length).sum

/-- np.mean over a 2-D float array: total sum divided by element count. -/
def npMean (g : Grid) : ℚ := gridSum g / (gridCount g : ℚ)

/-- Python round(x, k): round half to even at k decimal digits.  rhe is the
integer-valued round-half-to-even. -/
def rhe (x : ℚ) : ℤ :=
  if Int.fract x < 1 / 2 then ⌊x⌋
  else if 1 / 2 < Int.fract x then ⌊x⌋ + 1
  else if Even ⌊x⌋ then ⌊x⌋ else ⌊x⌋ + 1

/-- Python round(x, k) on the rational embedding of a float. -/
def pyRound (k : ℕ) (x : ℚ) : ℚ := ((rhe (x * 10 ^ k) : ℚ)) / 10 ^ k

/-- Per-pixel body of image_processor.calculate_ndvi (lines 71-85):
numerator = green - red, denominator = green + red, a zero denominator is
replaced by 1e-10 (np.where(denominator == 0, 1e-10, denominator)), the ratio
is remapped from [-1, 1] to [0, 1] by (ndvi + 1) / 2. -/
def ndviPixel (p : Pixel) : ℚ :=
  let numerator : ℚ := (p.g : ℚ) - (p.r : ℚ)
  let denominator : ℚ := (p.g : ℚ) + (p.r : ℚ)
  let denominator := if denominator = 0 then 1 / 10 ^ 10 else denominator
  (numerator / denominator + 1) / 2

/-- image_processor.calculate_ndvi: the simple index map together with its
np.mean average. -/
def calculate_ndvi (image : RasterImage) : Grid × ℚ :=
  let ndvi := image.map (fun row => row.map ndviPixel)
  (ndvi, npMean ndvi)

/-- The claim formula for the simple index: epsilon added to the denominator
unconditionally.  This definition follows the specification wording (section
4.2) and is compared against ndviPixel, which embeds the source. -/
def epsIndexFormula (eps : ℚ) (r g : ℕ) : ℚ :=
  (((g : ℚ) - (r : ℚ)) / ((g : ℚ) + (r : ℚ) + eps) + 1) / 2

/-- Build an h-by-w boolean grid from a cell function (np.zeros_like plus
pointwise writes, and the output shape of the OpenCV filters). -/
def buildMask (h w : ℕ) (f : ℕ → ℕ → Bool) : Mask :=
  (List.range h).map fun i => (List.range w).map fun j => f i j

/-- Mask lookup at integer coordinates; out-of-range reads as false.  Used with
the neutral-border convention of cv2.morphologyEx (BORDER_CONSTANT with the
morphological default border value, which is neutral for both operators). -/
def cellB (m : Mask) (i j : ℤ) : Bool :=
  if 0 ≤ i ∧ 0 ≤ j then (m.getD i.toNat []).getD j.toNat false else false

/-- Whether integer coordinates are inside the mask rectangle. -/
def inBoundsB (m : Mask) (i j : ℤ) : Bool :=
  decide (0 ≤ i ∧ i < (m.length : ℤ) ∧ 0 ≤ j ∧ j < (gridWidth m : ℤ))

/-- Offsets of the 5x5 structuring square np.ones((5, 5)) with its anchor at
the centre. -/
def offsets5 : List ℤ := [-2, -1, 0, 1, 2]

/-- cv2.dilate with the 5x5 square: a cell is set iff some cell of its 5x5
window is set; border cells outside the image are neutral (unset). -/
def dilate5 (m : Mask) : Mask :=
  buildMask m.length (gridWidth m) fun i j =>
    offsets5.any fun di => offsets5.any fun dj => cellB m ((i : ℤ) + di) ((j : ℤ) + dj)

/-- cv2.erode with the 5x5 square: a cell stays set iff every in-bounds cell of
its 5x5 window is set; cells outside the image are neutral (treated as set). -/
def erode5 (m : Mask) : Mask :=
  buildMask m.length (gridWidth m) fun i j =>
    offsets5.all fun di => offsets5.all fun dj =>
      !inBoundsB m ((i : ℤ) + di) ((j : ℤ) + dj) || cellB m ((i : ℤ) + di) ((j : ℤ) + dj)

/-- cv2.morphologyEx MORPH_CLOSE with the 5x5 kernel: dilation then erosion. -/
def morphClose (m : Mask) : Mask := erode5 (dilate5 m)

/-- cv2.morphologyEx MORPH_OPEN with the 5x5 kernel: erosion then dilation. -/
def morphOpen (m : Mask) : Mask := dilate5 (erode5 m)

/-- 8-adjacency of two distinct cells (the foreground connectivity used by the
OpenCV contour extractor). -/
def adj8 (p q : ℕ × ℕ) : Bool :=
  decide (p ≠ q ∧ ((p.1 : ℤ) - (q.1 : ℤ)).natAbs ≤ 1 ∧ ((p.2 : ℤ) - (q.2 : ℤ)).natAbs ≤ 1)

/-- Coordinates of the set cells of one row, starting at column j of row i. -/
def trueCoordsRow (i : ℕ) : ℕ → List Bool → List (ℕ × ℕ)
  | _, [] => []
  | j, x :: xs => (if x then [(i, j)] else []) ++ trueCoordsRow i (j + 1) xs

/-- Coordinates of the set cells of a mask, starting at row i. -/
def trueCoordsAux : ℕ → Mask → List (ℕ × ℕ)
  | _, [] => []
  | i, row :: rest => trueCoordsRow i 0 row ++ trueCoordsAux (i + 1) rest

/-- Coordinates of all set cells of a mask in raster order. -/
def trueCoords (m : Mask) : List (ℕ × ℕ) := trueCoordsAux 0 m

/-- Insert one set cell into a list of connected regions, merging every region
it touches under 8-adjacency. -/
def addCoord (cs : List (List (ℕ × ℕ))) (p : ℕ × ℕ) : List (List (ℕ × ℕ)) :=
  let touching := cs.filter fun c => c.any fun q => adj8 p q
  let rest := cs.filter fun c => !(c.any fun q => adj8 p q)
  (p :: touching.flatten) :: rest

/-- Modelled from the spec: cv2.findContours(RETR_EXTERNAL, CHAIN_APPROX_SIMPLE)
is an external OpenCV routine whose code is not part of this repository; per
specification section 4.3 it extracts the connected regions of the cleaned
mask, so this embedding returns the 8-connected regions of the mask, each
represented by its list of cells. -/
def findContoursExt (m : Mask) : List (List (ℕ × ℕ)) :=
  (trueCoords m).foldl addCoord []

/-- Modelled from the spec: cv2.contourArea is an external OpenCV routine; the
specification (section 4.3) describes the filter as comparing the pixel-area of
a region against the minimum, so a region measures as its cell count.  No
theorem below depends on this measure except through the strict comparison in
validContours, and every concrete evaluation below applies it to an empty
region list or to a single surviving region. -/
def contourArea (c : List (ℕ × ℕ)) : ℚ := (c.length : ℚ)

/-- Configuration constants read by image_processor.detect_vegetation:
VEGETATION_INDEX_THRESHOLD and MIN_VEGETATION_AREA from config.py. -/
structure SegConfig where
  vegetation_index_threshold : ℚ
  min_vegetation_area : ℚ
deriving DecidableEq, Repr

/-- Defaults from config.py: VEGETATION_INDEX_THRESHOLD = 0.3,
MIN_VEGETATION_AREA = 0.01. -/
def defaultSegConfig : SegConfig :=
  { vegetation_index_threshold := 3 / 10, min_vegetation_area := 1 / 100 }

/-- detect_vegetation line 100: vegetation_mask = ndvi > threshold. -/
def thresholdMask (ndvi : Grid) (t : ℚ) : Mask :=
  ndvi.map fun row => row.map fun v => decide (t < v)

/-- detect_vegetation lines 103-105: closing followed by opening with the 5x5
kernel. -/
def cleanedMask (ndvi : Grid) (t : ℚ) : Mask :=
  morphOpen (morphClose (thresholdMask ndvi t))

/-- detect_vegetation line 111: min_area = shape[0] * shape[1] *
MIN_VEGETATION_AREA, taken from the image. -/
def minArea (image : RasterImage) (cfg : SegConfig) : ℚ :=
  ((image.length : ℚ) * (gridWidth image : ℚ)) * cfg.min_vegetation_area

/-- detect_vegetation line 112: keep the contours whose area strictly exceeds
min_area. -/
def validContours (image : RasterImage) (ndvi : Grid) (cfg : SegConfig) :
    List (List (ℕ × ℕ)) :=
  (findContoursExt (cleanedMask ndvi cfg.vegetation_index_threshold)).filter fun c =>
    minArea image cfg < contourArea c

/-- Modelled from the spec: cv2.fillPoly over the surviving contours is an
external OpenCV routine; per specification section 4.3 the final mask contains
only the surviving regions, so a cell is set iff it belongs to a surviving
region.  Shape follows np.zeros_like(vegetation_mask) in line 115. -/
def fillRegions (h w : ℕ) (cs : List (List (ℕ × ℕ))) : Mask :=
  buildMask h w fun i j => cs.any fun c => decide ((i, j) ∈ c)

/-- detect_vegetation lines 114-116: the final mask. -/
def finalMask (image : RasterImage) (ndvi : Grid) (cfg : SegConfig) : Mask :=
  let cleaned := cleanedMask ndvi cfg.vegetation_index_threshold
  fillRegions cleaned.length (gridWidth cleaned) (validContours image ndvi cfg)

/-- Number of set cells of a mask (np.sum(mask > 0)). -/
def countTrue (m : Mask) : ℕ := (m.map fun row => row.count true).sum

/-- Values of one grid row selected by one mask row (ndvi[final_mask > 0],
restricted to a row). -/
def maskedRow : List ℚ → List Bool → List ℚ
  | v :: vs, x :: xs => (if x then [v] else []) ++ maskedRow vs xs
  | _, _ => []

/-- Values of a grid selected by a mask (ndvi[final_mask > 0]). -/
def maskedValues (g : Grid) (m : Mask) : List ℚ :=
  (List.zipWith maskedRow g m).flatten

/-- The statistics dictionary returned by detect_vegetation (lines 127-133). -/
structure VegStats where
  vegetation_coverage : ℚ
  vegetation_density : ℚ
  vegetation_pixels : ℕ
  total_pixels : ℕ
  num_vegetation_areas : ℕ
deriving DecidableEq, Repr

/-- image_processor.detect_vegetation: threshold, clean up, extract and filter
regions, rebuild the final mask, and compute coverage and density; density of
an empty selection is 0 by the explicit len > 0 guard in line 125. -/
def detect_vegetation (image : RasterImage) (ndvi : Grid) (cfg : SegConfig) :
    Mask × VegStats :=
  let fm := finalMask image ndvi cfg
  let total_pixels := image.length * gridWidth image
  let vegetation_pixels := countTrue fm
  let vegetation_ndvi := maskedValues ndvi fm
  let vegetation_density :=
    if 0 < vegetation_ndvi.length then
      vegetation_ndvi.sum / (vegetation_ndvi.length : ℚ)
    else 0
  (fm,
   { vegetation_coverage := (vegetation_pixels : ℚ) / (total_pixels : ℚ),
     vegetation_density := vegetation_density,
     vegetation_pixels := vegetation_pixels,
     total_pixels := total_pixels,
     num_vegetation_areas := (validContours image ndvi cfg).length })

/-- image_processor.calculate_image_area (lines 231-249).  The source performs
no input validation: gsd = (sensor_width * altitude) / (focal_length *
image_width), ground_width = gsd * image_width, ground_height = gsd *
image_height, area = ground_width * ground_height.  none embeds the Python
ZeroDivisionError raised by float division when focal_length * image_width is
exactly zero; no InvalidGeometry check exists anywhere in the source. -/
def calculate_image_area (altitude focal_length sensor_width : ℚ)
    (image_width image_height : ℕ) : Option ℚ :=
  if focal_length * (image_width : ℚ) = 0 then none
  else
    let gsd := (sensor_width * altitude) / (focal_length * (image_width : ℚ))
    let ground_width := gsd * (image_width : ℚ)
    let ground_height := gsd * (image_height : ℚ)
    some (ground_width * ground_height)

/-- Configuration constants read by estimate_co2_sequestration:
VEGETATION_DENSITY_MULTIPLIER and CO2_PER_SQM from config.py. -/
structure CO2Config where
  vegetation_density_multiplier : ℚ
  co2_per_sqm : ℚ
deriving DecidableEq, Repr

/-- Defaults from config.py: CO2_PER_SQM = 0.5,
VEGETATION_DENSITY_MULTIPLIER = 1.2. -/
def defaultCO2Config : CO2Config :=
  { vegetation_density_multiplier := 12 / 10, co2_per_sqm := 1 / 2 }

/-- The dictionary returned by estimate_co2_sequestration (lines 159-166). -/
structure CO2Estimation where
  co2_sequestered_kg : ℚ
  co2_sequestered_tons : ℚ
  vegetated_area_sqm : ℚ
  effective_area_sqm : ℚ
  vegetation_coverage_percent : ℚ
  vegetation_density_score : ℚ
deriving DecidableEq, Repr

/-- image_processor.estimate_co2_sequestration (lines 141-166): vegetated_area
= image_area * coverage, effective_area = vegetated_area * density *
multiplier, co2 = effective_area * CO2_PER_SQM, tons = co2 / 1000; every
returned field is rounded. -/
def estimate_co2_sequestration (cfg : CO2Config)
    (vegetation_coverage vegetation_density image_area_sqm : ℚ) : CO2Estimation :=
  let vegetated_area := image_area_sqm * vegetation_coverage
  let effective_area := vegetated_area * vegetation_density * cfg.vegetation_density_multiplier
  let co2_sequestered := effective_area * cfg.co2_per_sqm
  let co2_sequestered_tons := co2_sequestered / 1000
  { co2_sequestered_kg := pyRound 2 co2_sequestered,
    co2_sequestered_tons := pyRound 4 co2_sequestered_tons,
    vegetated_area_sqm := pyRound 2 vegetated_area,
    effective_area_sqm := pyRound 2 effective_area,
    vegetation_coverage_percent := pyRound 2 (vegetation_coverage * 100),
    vegetation_density_score := pyRound 3 vegetation_density }

/-- The dictionary returned by ai_model.estimate_biomass (lines 301-307). -/
structure BiomassEstimation where
  biomass_per_sqm_kg : ℚ
  total_biomass_kg : ℚ
  total_biomass_tons : ℚ
  ndvi_coefficient : ℚ
  estimation_confidence : String
deriving DecidableEq, Repr

/-- ai_model.TensorFlowProcessor.estimate_biomass (lines 280-307): a = 2.5 and
b = 2.0 are literal local constants in the source; biomass_per_sqm = a *
avg_ndvi ** b (the float exponent 2.0 on a float base is squaring, embedded as
the natural power 2), total = biomass_per_sqm * image_area, tons = total /
1000; returned fields are rounded. -/
def estimate_biomass (ndvi : Grid) (image_area : ℚ) : BiomassEstimation :=
  let avg_ndvi := npMean ndvi
  let biomass_per_sqm := 5 / 2 * avg_ndvi ^ (2 : ℕ)
  let total_biomass := biomass_per_sqm * image_area
  let total_biomass_tons := total_biomass / 1000
  { biomass_per_sqm_kg := pyRound 2 biomass_per_sqm,
    total_biomass_kg := pyRound 2 total_biomass,
    total_biomass_tons := pyRound 4 total_biomass_tons,
    ndvi_coefficient := pyRound 3 avg_ndvi,
    estimation_confidence := "medium" }

/-- The claim formula for the biomass estimate: a * mean_index ^ b with
configurable coefficients a and b whose defaults are 2.5 and 2.0.  This
definition follows the specification wording (section 4.5) and is compared
against estimate_biomass, which embeds the source: the source function has no
coefficient parameters at all and no Config entry for them, so it can only
ever realise the a = 5/2, b = 2 instance of this formula. -/
def estimate_biomass_spec (a : ℚ) (b : ℕ) (ndvi : Grid) (image_area : ℚ) :
    BiomassEstimation :=
  let avg_ndvi := npMean ndvi
  let biomass_per_sqm := a * avg_ndvi ^ b
  let total_biomass := biomass_per_sqm * image_area
  let total_biomass_tons := total_biomass / 1000
  { biomass_per_sqm_kg := pyRound 2 biomass_per_sqm,
    total_biomass_kg := pyRound 2 total_biomass,
    total_biomass_tons := pyRound 4 total_biomass_tons,
    ndvi_coefficient := pyRound 3 avg_ndvi,
    estimation_confidence := "medium" }

/-- Which underlying Keras model ai_model.VegetationDetectionModel ends up
holding: the trained model loaded from disk, or the freshly built default CNN
from _create_default_model. -/
inductive ModelKind where
  | trained : ModelKind
  | defaultCNN : ModelKind
deriving DecidableEq, Repr

/-- Result of a completed ai_model.load_model call: the model in place and the
boolean the method returns. -/
structure LoadOutcome where
  model : ModelKind
  retval : Bool
deriving DecidableEq, Repr

/-- ai_model.VegetationDetectionModel.load_model (lines 19-39), with the three
environmental outcomes as booleans: whether the model file exists, whether
tf.keras.models.load_model succeeds, and whether _create_default_model
succeeds.  Missing file: build the default model and return True.  Load
exception: build the default model and return False.  If building the default
model itself raises (line 69 re-raises), the exception propagates, embedded as
error. -/
def load_model (model_file_exists load_succeeds default_creation_succeeds : Bool) :
    Except String LoadOutcome :=
  if !model_file_exists then
    if default_creation_succeeds then .ok ⟨.defaultCNN, true⟩
    else .error "create_default_failed"
  else if load_succeeds then .ok ⟨.trained, true⟩
  else if default_creation_succeeds then .ok ⟨.defaultCNN, false⟩
  else .error "create_default_failed"

/-- The statistics dictionary returned by ai_model.segment_vegetation
(lines 132-138). -/
structure AISegStats where
  vegetation_probability : ℚ
  vegetation_coverage : ℚ
  vegetation_pixels : ℕ
  total_pixels : ℕ
  confidence_threshold : ℚ
deriving DecidableEq, Repr

/-- ai_model.segment_vegetation (lines 111-140).  prob is the scalar output of
the classifier for this image (Modelled from the spec: classify(RasterImage)
yields one probability, broadcast uniformly by np.full over the image shape);
the confidence map is thresholded at CONFIDENCE_THRESHOLD and cleaned with the
same closing-then-opening 5x5 morphology. -/
def segment_vegetation (prob : ℚ) (image : RasterImage) (confidence_threshold : ℚ) :
    Mask × AISegStats :=
  let confidence_map : Grid := image.map fun row => row.map fun _ => prob
  let segmentation_mask := morphOpen (morphClose (thresholdMask confidence_map confidence_threshold))
  let total_pixels := image.length * gridWidth image
  let vegetation_pixels := countTrue segmentation_mask
  (segmentation_mask,
   { vegetation_probability := pyRound 3 prob,
     vegetation_coverage := (vegetation_pixels : ℚ) / (total_pixels : ℚ),
     vegetation_pixels := vegetation_pixels,
     total_pixels := total_pixels,
     confidence_threshold := confidence_threshold })

/-- The dictionary returned by ai_model.analyze_vegetation_health
(lines 168-174). -/
structure HealthAnalysis where
  health_score : ℚ
  health_category : String
  ai_vegetation_probability : ℚ
  average_ndvi : ℚ
  confidence_level : String
deriving DecidableEq, Repr

/-- ai_model.analyze_vegetation_health (lines 146-178): health_score =
(probability + mean ndvi) / 2, four-bucket category with strict thresholds
0.7, 0.5, 0.3, confidence high iff probability > 0.8. -/
def analyze_vegetation_health (prob : ℚ) (ndvi : Grid) : HealthAnalysis :=
  let avg_ndvi := npMean ndvi
  let health_score := (prob + avg_ndvi) / 2
  let health_category :=
    if 7 / 10 < health_score then "Excellent"
    else if 1 / 2 < health_score then "Good"
    else if 3 / 10 < health_score then "Fair"
    else "Poor"
  { health_score := pyRound 3 health_score,
    health_category := health_category,
    ai_vegetation_probability := pyRound 3 prob,
    average_ndvi := pyRound 3 avg_ndvi,
    confidence_level := if 4 / 5 < prob then "high" else "medium" }

/-- The vegetation-type distribution returned by detect_vegetation_types
(lines 254-274). -/
structure VegTypes where
  dense_forest : ℚ
  sparse_vegetation : ℚ
  grassland : ℚ
  water : ℚ
deriving DecidableEq, Repr

/-- Mean of one channel over all pixels of the image (np.mean(image[:, :, k])). -/
def channelMean (f : Pixel → ℕ) (image : RasterImage) : ℚ :=
  ((image.map fun row => (row.map fun p => ((f p : ℕ) : ℚ)).sum).sum) /
    (((image.map List.length).sum : ℕ) : ℚ)

/-- ai_model.detect_vegetation_types (lines 239-274): channel means, the two
ratios with 1e-8 added to the denominators, then the ordered rule chain. -/
def detect_vegetation_types (image : RasterImage) : VegTypes :=
  let red_mean := channelMean Pixel.r image
  let green_mean := channelMean Pixel.g image
  let blue_mean := channelMean Pixel.b image
  let gRed := green_mean / (red_mean + 1 / 10 ^ 8)
  let gBlue := green_mean / (blue_mean + 1 / 10 ^ 8)
  if 12 / 10 < gRed ∧ 11 / 10 < gBlue then ⟨8 / 10, 2 / 10, 0, 0⟩
  else if 1 < gRed then ⟨0, 6 / 10, 4 / 10, 0⟩
  else if red_mean < blue_mean ∧ green_mean < blue_mean then ⟨0, 0, 0, 9 / 10⟩
  else ⟨0, 3 / 10, 7 / 10, 0⟩

/-- Pre-smoothing first ratio of enhance_ndvi_calculation (line 219):
(green - red) / (green + red + 1e-8). -/
def ndvi1Pixel (p : Pixel) : ℚ :=
  ((p.g : ℚ) - (p.r : ℚ)) / ((p.g : ℚ) + (p.r : ℚ) + 1 / 10 ^ 8)

/-- Pre-smoothing second ratio of enhance_ndvi_calculation (line 220):
(green - blue) / (green + blue + 1e-8). -/
def ndvi2Pixel (p : Pixel) : ℚ :=
  ((p.g : ℚ) - (p.b : ℚ)) / ((p.g : ℚ) + (p.b : ℚ) + 1 / 10 ^ 8)

/-- ai_model.enhance_ndvi_calculation (lines 206-233): average the two
epsilon-stabilised ratios, remap to [0, 1], then smooth.  Modelled from the
spec: the final tf.image.gaussian_filter2d blur is external TensorFlow code
involving irrational Gaussian weights; specification section 4.2 calls it a
local small-window blur, kept here as an explicit function argument since no
claim depends on its numeric effect. -/
def enhance_ndvi_calculation (smooth : Grid → Grid) (image : RasterImage) : Grid :=
  smooth (image.map fun row => row.map fun p => ((ndvi1Pixel p + ndvi2Pixel p) / 2 + 1) / 2)

/-- The dictionary returned by ai_model.process_with_ai (lines 335-345).  The
enhanced_ndvi sub-dictionary of the source also carries np.std of the enhanced
index, a floating-point square root that no claim refers to; it is omitted
from this embedding. -/
structure AIResult where
  average_enhanced_ndvi : ℚ
  ai_segmentation : AISegStats
  vegetation_health : HealthAnalysis
  vegetation_types : VegTypes
  biomass_estimation : BiomassEstimation
deriving DecidableEq, Repr

/-- ai_model.TensorFlowProcessor.process_with_ai (lines 313-349): load the
model (a failure there is re-raised by the except clause in line 349, embedded
as error), then compute the enhanced index, the AI segmentation, the health
analysis, the type distribution and the biomass estimate.  classify is the
inference of the loaded Keras model (Modelled from the spec: the classifier
capability returns a probability for the image). -/
def process_with_ai (model_file_exists load_succeeds default_creation_succeeds : Bool)
    (classify : ModelKind → ℚ) (smooth : Grid → Grid) (image : RasterImage)
    (image_area : ℚ) (confidence_threshold : ℚ) : Except String AIResult :=
  match load_model model_file_exists load_succeeds default_creation_succeeds with
  | .error e => .error e
  | .ok outcome =>
    let enhanced_ndvi := enhance_ndvi_calculation smooth image
    let prob := classify outcome.model
    let seg := segment_vegetation prob image confidence_threshold
    .ok { average_enhanced_ndvi := pyRound 3 (npMean enhanced_ndvi),
          ai_segmentation := seg.2,
          vegetation_health := analyze_vegetation_health prob enhanced_ndvi,
          vegetation_types := detect_vegetation_types image,
          biomass_estimation := estimate_biomass enhanced_ndvi image_area }

/-- Health category of a process_with_ai result, none when it raised. -/
def healthCategoryOf : Except String AIResult → Option String
  | .ok r => some r.vegetation_health.health_category
  | .error _ => none

/-- Reported classifier probability of a process_with_ai result. -/
def aiProbOf : Except String AIResult → Option ℚ
  | .ok r => some r.vegetation_health.ai_vegetation_probability
  | .error _ => none

/-- A mask with no set cell (an empty vegetation mask). -/
def allFalse (m : Mask) : Prop := ∀ row ∈ m, ∀ x ∈ row, x = false

instance (m : Mask) : Decidable (allFalse m) := by
  unfold allFalse
  exact List.decidableBAll _ m

/-- The 10x10 counterexample image for region filtering: a red background with
a single green pixel at (5, 5); with the default configuration its single-cell
vegetated blob is exactly MIN_VEGETATION_AREA times the pixel count. -/
def img10 : RasterImage :=
  (List.range 10).map fun i => (List.range 10).map fun j =>
    if i = 5 ∧ j = 5 then ⟨0, 255, 0⟩ else ⟨255, 0, 0⟩

/-- A single-pixel green image: its one-cell region survives the 5x5 cleanup
(no in-bounds neighbours constrain the erosion) and the area filter. -/
def imgGreen1 : RasterImage := [[⟨0, 255, 0⟩]]

/-- A 2x2 all-black image. -/
def imgBlack2 : RasterImage := [[⟨0, 0, 0⟩, ⟨0, 0, 0⟩], [⟨0, 0, 0⟩, ⟨0, 0, 0⟩]]

theorem map_length_map {α β : Type} (f : α → β) :
    ∀ l : List (List α), (l.map (List.map f)).map List.length = l.map List.length
  | [] => rfl
  | r :: t => by simp [map_length_map f t]

/-- Closed form of the per-pixel simple index. -/
theorem ndviPixel_eq (p : Pixel) :
    ndviPixel p =
      if (p.g : ℚ) + (p.r : ℚ) = 0 then 1 / 2
      else (((p.g : ℚ) - (p.r : ℚ)) / ((p.g : ℚ) + (p.r : ℚ)) + 1) / 2 := by
  unfold ndviPixel
  by_cases h : (p.g : ℚ) + (p.r : ℚ) = 0
  · have hg : (p.g : ℚ) = 0 := by
      have h1 : (0 : ℚ) ≤ (p.g : ℚ) := by positivity
      have h2 : (0 : ℚ) ≤ (p.r : ℚ) := by positivity
      linarith
    have hr : (p.r : ℚ) = 0 := by
      have h1 : (0 : ℚ) ≤ (p.g : ℚ) := by positivity
      have h2 : (0 : ℚ) ≤ (p.r : ℚ) := by positivity
      linarith
    simp [h, hg, hr]
  · simp [h]

theorem ndviPixel_bounds (p : Pixel) : 0 ≤ ndviPixel p ∧ ndviPixel p ≤ 1 := by
  rw [ndviPixel_eq]
  by_cases h : (p.g : ℚ) + (p.r : ℚ) = 0
  · simp [h]
    norm_num
  · simp [h]
    have hg : (0 : ℚ) ≤ (p.g : ℚ) := by positivity
    have hr : (0 : ℚ) ≤ (p.r : ℚ) := by positivity
    have hpos : 0 < (p.g : ℚ) + (p.r : ℚ) := lt_of_le_of_ne (by linarith) (Ne.symm h)
    have hub : ((p.g : ℚ) - (p.r : ℚ)) / ((p.g : ℚ) + (p.r : ℚ)) ≤ 1 := by
      rw [div_le_one hpos]; linarith
    have hlb : (-1 : ℚ) ≤ ((p.g : ℚ) - (p.r : ℚ)) / ((p.g : ℚ) + (p.r : ℚ)) := by
      rw [le_div_iff₀ hpos]; linarith
    constructor <;> linarith

theorem ndviPixel_eq_half_of_eq (p : Pixel) (h : p.r = p.g) : ndviPixel p = 1 / 2 := by
  rw [ndviPixel_eq]
  by_cases h0 : (p.g : ℚ) + (p.r : ℚ) = 0
  · simp [h0]
  · have : (p.g : ℚ) - (p.r : ℚ) = 0 := by
      rw [h]; ring
    simp [h0, this]

theorem rowGetD_false {row : List Bool} (h : ∀ x ∈ row, x = false) (j : ℕ) :
    row.getD j false = false := by
  induction row generalizing j with
  | nil => simp
  | cons x xs ih =>
    cases j with
    | zero => simpa using h x (by simp)
    | succ n =>
      simp only [List.getD_cons_succ]
      exact ih (fun y hy => h y (by simp [hy])) n

theorem maskGetD_false {m : Mask} (h : allFalse m) (i j : ℕ) :
    (m.getD i []).getD j false = false := by
  induction m generalizing i with
  | nil => simp
  | cons row rest ih =>
    cases i with
    | zero =>
      simp only [List.getD_cons_zero]
      exact rowGetD_false (fun x hx => h row (by simp) x hx) j
    | succ n =>
      simp only [List.getD_cons_succ]
      exact ih (fun r hr x hx => h r (by simp [hr]) x hx) n

theorem cellB_false {m : Mask} (h : allFalse m) (i j : ℤ) : cellB m i j = false := by
  unfold cellB
  split
  · exact maskGetD_false h _ _
  · rfl

theorem allFalse_buildMask {h w : ℕ} {f : ℕ → ℕ → Bool}
    (hf : ∀ i < h, ∀ j < w, f i j = false) : allFalse (buildMask h w f) := by
  intro row hrow x hx
  unfold buildMask at hrow
  rcases List.mem_map.mp hrow with ⟨i, hi, rfl⟩
  rcases List.mem_map.mp hx with ⟨j, hj, rfl⟩
  exact hf i (List.mem_range.mp hi) j (List.mem_range.mp hj)

theorem allFalse_dilate5 {m : Mask} (h : allFalse m) : allFalse (dilate5 m) := by
  apply allFalse_buildMask
  intro i _ j _
  simp [cellB_false h]

theorem allFalse_erode5 {m : Mask} (h : allFalse m) : allFalse (erode5 m) := by
  apply allFalse_buildMask
  intro i hi j hj
  rw [Bool.eq_false_iff]
  intro hall
  have h0 : ∀ di ∈ offsets5, ∀ dj ∈ offsets5,
      (!inBoundsB m ((i : ℤ) + di) ((j : ℤ) + dj) ||
        cellB m ((i : ℤ) + di) ((j : ℤ) + dj)) = true := by
    intro di hdi dj hdj
    have := List.all_eq_true.mp hall di hdi
    exact List.all_eq_true.mp this dj hdj
  have hcenter := h0 0 (by simp [offsets5]) 0 (by simp [offsets5])
  have hin : inBoundsB m ((i : ℤ) + 0) ((j : ℤ) + 0) = true := by
    unfold inBoundsB
    simp only [decide_eq_true_eq]
    refine ⟨by positivity, ?_, by positivity, ?_⟩ <;> omega
  rw [hin, cellB_false h] at hcenter
  simp at hcenter

theorem allFalse_morph {m : Mask} (h : allFalse m) :
    allFalse (morphOpen (morphClose m)) :=
  allFalse_dilate5 (allFalse_erode5 (allFalse_erode5 (allFalse_dilate5 h)))

theorem trueCoordsRow_nil {row : List Bool} (h : ∀ x ∈ row, x = false) (i j : ℕ) :
    trueCoordsRow i j row = [] := by
  induction row generalizing j with
  | nil => rfl
  | cons x xs ih =>
    have hx : x = false := h x (by simp)
    simp [trueCoordsRow, hx, ih (fun y hy => h y (by simp [hy]))]

theorem trueCoords_nil {m : Mask} (h : allFalse m) : trueCoords m = [] := by
  unfold trueCoords
  generalize 0 = i
  induction m generalizing i with
  | nil => rfl
  | cons row rest ih =>
    simp [trueCoordsAux, trueCoordsRow_nil (fun x hx => h row (by simp) x hx),
      ih (fun r hr x hx => h r (by simp [hr]) x hx)]

theorem countTrue_eq_zero {m : Mask} (h : allFalse m) : countTrue m = 0 := by
  unfold countTrue
  apply List.sum_eq_zero
  intro n hn
  rcases List.mem_map.mp hn with ⟨row, hrow, rfl⟩
  rw [List.count_eq_zero]
  intro ht
  exact absurd (h row hrow true ht) (by simp)

theorem maskedRow_nil {row : List Bool} (h : ∀ x ∈ row, x = false) :
    ∀ g : List ℚ, maskedRow g row = [] := by
  induction row with
  | nil => intro g; cases g <;> rfl
  | cons x xs ih =>
    intro g
    cases g with
    | nil => rfl
    | cons v vs =>
      have hx : x = false := h x (by simp)
      simp [maskedRow, hx, ih (fun y hy => h y (by simp [hy])) vs]

theorem maskedValues_nil {m : Mask} (h : allFalse m) (g : Grid) :
    maskedValues g m = [] := by
  unfold maskedValues
  induction m generalizing g with
  | nil => simp
  | cons row rest ih =>
    cases g with
    | nil => simp
    | cons v vs =>
      simp [maskedRow_nil (fun x hx => h row (by simp) x hx) v,
        ih (fun r hr x hx => h r (by simp [hr]) x hx) vs]

theorem floor_le_rhe (x : ℚ) : ⌊x⌋ ≤ rhe x := by
  unfold rhe
  split_ifs <;> omega

theorem rhe_le_floor_add_one (x : ℚ) : rhe x ≤ ⌊x⌋ + 1 := by
  unfold rhe
  split_ifs <;> omega

theorem rhe_mono {x y : ℚ} (h : x ≤ y) : rhe x ≤ rhe y := by
  have hf : ⌊x⌋ ≤ ⌊y⌋ := Int.floor_mono h
  rcases eq_or_lt_of_le hf with he | hl
  · have hfr : Int.fract x ≤ Int.fract y := by
      unfold Int.fract
      rw [← he]
      linarith
    unfold rhe
    rw [← he]
    split_ifs <;> first | omega | linarith
  · calc rhe x ≤ ⌊x⌋ + 1 := rhe_le_floor_add_one x
    _ ≤ ⌊y⌋ := by omega
    _ ≤ rhe y := floor_le_rhe y

theorem pyRound_mono (k : ℕ) {x y : ℚ} (h : x ≤ y) : pyRound k x ≤ pyRound k y := by
  unfold pyRound
  have h10 : (0 : ℚ) < 10 ^ k := by positivity
  rw [div_le_div_iff_of_pos_right h10]
  exact_mod_cast rhe_mono (mul_le_mul_of_nonneg_right h (le_of_lt h10))

theorem buildMask_getD (h w : ℕ) (f : ℕ → ℕ → Bool) (i j : ℕ) :
    ((buildMask h w f).getD i []).getD j false =
      if i < h ∧ j < w then f i j else false := by
  unfold buildMask
  by_cases hi : i < h
  · have h1 : ((List.range h).map fun i => (List.range w).map fun j => f i j).getD i []
        = (List.range w).map fun j => f i j := by
      rw [List.getD_eq_getElem?_getD, List.getElem?_map, List.getElem?_range hi]
      rfl
    rw [h1]
    by_cases hj : j < w
    · rw [List.getD_eq_getElem?_getD, List.getElem?_map, List.getElem?_range hj]
      simp [hi, hj]
    · have h2 : ((List.range w).map fun j => f i j)[j]? = none := by
        rw [List.getElem?_eq_none_iff]
        simpa using Nat.le_of_not_lt hj
      rw [List.getD_eq_getElem?_getD, h2]
      simp [hj]
  · have h2 : (((List.range h).map fun i => (List.range w).map fun j => f i j))[i]? = none := by
      rw [List.getElem?_eq_none_iff]
      simpa using Nat.le_of_not_lt hi
    have h3 : ((List.range h).map fun i => (List.range w).map fun j => f i j).getD i [] = [] := by
      rw [List.getD_eq_getElem?_getD, h2]
      rfl
    rw [h3]
    simp [hi]

theorem ite_category_mem (s : ℚ) :
    (if 7 / 10 < s then "Excellent"
      else if 1 / 2 < s then "Good"
      else if 3 / 10 < s then "Fair" else "Poor") ∈
      (["Excellent", "Good", "Fair", "Poor"] : List String) := by
  split_ifs <;> simp

theorem health_category_mem (prob : ℚ) (ndvi : Grid) :
    (analyze_vegetation_health prob ndvi).health_category ∈
      (["Excellent", "Good", "Fair", "Poor"] : List String) :=
  ite_category_mem _

/-- Claim C1: for every valid RasterImage (non-empty, 3-channel, non-negative
integer intensities) the simple index map produced by calculate_ndvi has the
same row count and the same row lengths as its source image, and every value
lies in the closed interval [0, 1]. -/
theorem spec_c1_index_dims_range (image : RasterImage) (_hne : image ≠ []) :
    ((calculate_ndvi image).1).map List.length = image.map List.length ∧
    ∀ row ∈ (calculate_ndvi image).1, ∀ v ∈ row, 0 ≤ v ∧ v ≤ 1 := by
  constructor
  · exact map_length_map ndviPixel image
  · intro row hrow v hv
    simp only [calculate_ndvi] at hrow
    rcases List.mem_map.mp hrow with ⟨orig, _, rfl⟩
    rcases List.mem_map.mp hv with ⟨p, _, rfl⟩
    exact ndviPixel_bounds p

theorem spec_c1_witness :
    ([[(⟨10, 200, 30⟩ : Pixel)]] : RasterImage) ≠ [] ∧
    (((calculate_ndvi [[(⟨10, 200, 30⟩ : Pixel)]]).1).map List.length =
        ([[(⟨10, 200, 30⟩ : Pixel)]] : RasterImage).map List.length ∧
      ∀ row ∈ (calculate_ndvi [[(⟨10, 200, 30⟩ : Pixel)]]).1, ∀ v ∈ row, 0 ≤ v ∧ v ≤ 1) :=
  ⟨by decide, spec_c1_index_dims_range _ (by decide)⟩

/-- Claim C2 counterexample: at a pixel with green 1 and red 0 the source
index (calculate_ndvi) is exactly 1, while the epsilon-in-denominator formula
of the claim, at the cited epsilon 1e-8, is strictly below 1: the source only
substitutes a replacement denominator when the true denominator is exactly
zero (np.where(denominator == 0, 1e-10, denominator)) and never adds an
epsilon to a nonzero denominator. -/
theorem spec_c2_eps_formula_cex :
    (calculate_ndvi [[(⟨0, 1, 0⟩ : Pixel)]]).1 = [[1]] ∧
    epsIndexFormula (1 / 10 ^ 8) 0 1 ≠ 1 := by
  constructor
  · norm_num [calculate_ndvi, ndviPixel]
  · norm_num [epsIndexFormula]

/-- Claim C2 amended: for every pixel the simple index equals
((green - red) / (green + red) + 1) / 2 whenever green + red is nonzero, with
no epsilon in the denominator; when green + red is zero the denominator is
replaced by 1e-10, which yields exactly 1/2; the epsilon-in-denominator form
(epsilon = 1e-8) is used by the enhanced variant ratios instead. -/
theorem spec_c2_amended_simple_index_formula (image : RasterImage) :
    (calculate_ndvi image).1 =
      image.map (List.map fun p =>
        if (p.g : ℚ) + (p.r : ℚ) = 0 then 1 / 2
        else (((p.g : ℚ) - (p.r : ℚ)) / ((p.g : ℚ) + (p.r : ℚ)) + 1) / 2) ∧
    ∀ p : Pixel, ndvi1Pixel p =
      ((p.g : ℚ) - (p.r : ℚ)) / ((p.g : ℚ) + (p.r : ℚ) + 1 / 10 ^ 8) := by
  constructor
  · show image.map (fun row => row.map ndviPixel) = _
    apply List.map_congr_left
    intro row _
    apply List.map_congr_left
    intro p _
    exact ndviPixel_eq p
  · intro p
    rfl

/-- Claim C3: on any image whose red and green channels agree at every pixel
(the all-black image included) the simple index is exactly 1/2 everywhere; the
computation is total, so no NaN and no exception arises. -/
theorem spec_c3_equal_channels_give_half (image : RasterImage)
    (h : ∀ row ∈ image, ∀ p ∈ row, p.r = p.g) :
    ∀ row ∈ (calculate_ndvi image).1, ∀ v ∈ row, v = 1 / 2 := by
  intro row hrow v hv
  simp only [calculate_ndvi] at hrow
  rcases List.mem_map.mp hrow with ⟨orig, horig, rfl⟩
  rcases List.mem_map.mp hv with ⟨p, hp, rfl⟩
  exact ndviPixel_eq_half_of_eq p (h orig horig p hp)

theorem spec_c3_witness :
    (∀ row ∈ imgBlack2, ∀ p ∈ row, p.r = p.g) ∧
    ∀ row ∈ (calculate_ndvi imgBlack2).1, ∀ v ∈ row, v = 1 / 2 :=
  ⟨by decide, spec_c3_equal_channels_give_half imgBlack2 (by decide)⟩

/-- Claim C4 counterexample: with altitude 0 (and the other example inputs of
the claim) calculate_image_area does not fail with InvalidGeometry or any
other error; it silently returns the zero area.  The source contains no
validation of its inputs. -/
theorem spec_c4_no_invalid_geometry_cex :
    calculate_image_area 0 35 (47 / 2) 1920 1080 = some 0 := by
  norm_num [calculate_image_area]

/-- Claim C4 amended: calculate_image_area performs no input validation.  For
all-positive inputs it returns the positive area
((sensor_width * altitude) / (focal_length * image_width) * image_width) *
((sensor_width * altitude) / (focal_length * image_width) * image_height);
altitude 0 silently yields area 0; focal_length 0 makes the float division
raise ZeroDivisionError (embedded as none), which is not an InvalidGeometry
error. -/
theorem spec_c4_amended_area (altitude focal_length sensor_width : ℚ)
    (image_width image_height : ℕ) (h1 : 0 < altitude) (h2 : 0 < focal_length)
    (h3 : 0 < sensor_width) (h4 : 0 < image_width) (h5 : 0 < image_height) :
    (calculate_image_area altitude focal_length sensor_width image_width image_height =
      some ((sensor_width * altitude) / (focal_length * (image_width : ℚ)) * (image_width : ℚ) *
        ((sensor_width * altitude) / (focal_length * (image_width : ℚ)) * (image_height : ℚ))) ∧
      0 < (sensor_width * altitude) / (focal_length * (image_width : ℚ)) * (image_width : ℚ) *
        ((sensor_width * altitude) / (focal_length * (image_width : ℚ)) * (image_height : ℚ))) ∧
    calculate_image_area 0 35 (47 / 2) 1920 1080 = some 0 ∧
    calculate_image_area 100 0 (47 / 2) 1920 1080 = none := by
  have hw : (0 : ℚ) < (image_width : ℚ) := by exact_mod_cast h4
  have hh : (0 : ℚ) < (image_height : ℚ) := by exact_mod_cast h5
  have hden : (0 : ℚ) < focal_length * (image_width : ℚ) := mul_pos h2 hw
  have hgsd : 0 < (sensor_width * altitude) / (focal_length * (image_width : ℚ)) :=
    div_pos (mul_pos h3 h1) hden
  refine ⟨⟨?_, ?_⟩, by norm_num [calculate_image_area], ?_⟩
  · unfold calculate_image_area
    rw [if_neg (ne_of_gt hden)]
  · exact mul_pos (mul_pos hgsd hw) (mul_pos hgsd hh)
  · norm_num [calculate_image_area]

theorem spec_c4_witness :
    (0 : ℚ) < 100 ∧ (0 : ℚ) < 35 ∧ (0 : ℚ) < 47 / 2 ∧ 0 < 1920 ∧ 0 < 1080 ∧
    calculate_image_area 100 35 (47 / 2) 1920 1080 =
      some ((47 / 2 * 100) / (35 * (1920 : ℚ)) * (1920 : ℚ) *
        ((47 / 2 * 100) / (35 * (1920 : ℚ)) * (1080 : ℚ))) ∧
    0 < (47 / 2 * 100) / (35 * (1920 : ℚ)) * (1920 : ℚ) *
      ((47 / 2 * 100) / (35 * (1920 : ℚ)) * (1080 : ℚ)) := by
  have h := (spec_c4_amended_area 100 35 (47 / 2) 1920 1080 (by norm_num) (by norm_num)
    (by norm_num) (by norm_num) (by norm_num)).1
  exact ⟨by norm_num, by norm_num, by norm_num, by norm_num, by norm_num,
    by exact_mod_cast h.1, by exact_mod_cast h.2⟩

/-- Claim C5: when every index value is at or below the segmentation
threshold, detect_vegetation returns an empty mask with coverage 0, density 0
and zero vegetated pixels; density of the empty selection is 0 by the explicit
guard, not NaN, and the computation is total. -/
theorem spec_c5_below_threshold_empty (image : RasterImage) (ndvi : Grid)
    (cfg : SegConfig)
    (h : ∀ row ∈ ndvi, ∀ v ∈ row, v ≤ cfg.vegetation_index_threshold) :
    allFalse (detect_vegetation image ndvi cfg).1 ∧
    (detect_vegetation image ndvi cfg).2.vegetation_coverage = 0 ∧
    (detect_vegetation image ndvi cfg).2.vegetation_density = 0 ∧
    (detect_vegetation image ndvi cfg).2.vegetation_pixels = 0 := by
  have hm0 : allFalse (thresholdMask ndvi cfg.vegetation_index_threshold) := by
    intro row hrow x hx
    unfold thresholdMask at hrow
    rcases List.mem_map.mp hrow with ⟨orig, horig, rfl⟩
    rcases List.mem_map.mp hx with ⟨v, hv, rfl⟩
    simpa using not_lt.mpr (h orig horig v hv)
  have hclean : allFalse (cleanedMask ndvi cfg.vegetation_index_threshold) :=
    allFalse_morph hm0
  have hval : validContours image ndvi cfg = [] := by
    unfold validContours findContoursExt
    rw [trueCoords_nil hclean]
    rfl
  have hfm : allFalse (finalMask image ndvi cfg) := by
    unfold finalMask fillRegions
    rw [hval]
    apply allFalse_buildMask
    intro i _ j _
    rfl
  have hcount : countTrue (finalMask image ndvi cfg) = 0 := countTrue_eq_zero hfm
  simp only [detect_vegetation]
  refine ⟨hfm, ?_, ?_, hcount⟩
  · rw [hcount]
    simp
  · rw [maskedValues_nil hfm]
    simp

theorem spec_c5_witness :
    (∀ row ∈ ([[1 / 10, 3 / 10], [0, 1 / 5]] : Grid), ∀ v ∈ row,
      v ≤ defaultSegConfig.vegetation_index_threshold) ∧
    (allFalse (detect_vegetation imgBlack2 [[1 / 10, 3 / 10], [0, 1 / 5]] defaultSegConfig).1 ∧
     (detect_vegetation imgBlack2 [[1 / 10, 3 / 10], [0, 1 / 5]] defaultSegConfig).2.vegetation_coverage = 0 ∧
     (detect_vegetation imgBlack2 [[1 / 10, 3 / 10], [0, 1 / 5]] defaultSegConfig).2.vegetation_density = 0 ∧
     (detect_vegetation imgBlack2 [[1 / 10, 3 / 10], [0, 1 / 5]] defaultSegConfig).2.vegetation_pixels = 0) := by
  have hyp : ∀ row ∈ ([[1 / 10, 3 / 10], [0, 1 / 5]] : Grid), ∀ v ∈ row,
      v ≤ defaultSegConfig.vegetation_index_threshold := by
    intro row hrow v hv
    fin_cases hrow <;> fin_cases hv <;> norm_num [defaultSegConfig]
  exact ⟨hyp, spec_c5_below_threshold_empty imgBlack2 _ defaultSegConfig hyp⟩

/-- Claim C6 counterexample: in the 10x10 image img10 with the default
configuration (min_area_fraction 0.01, so min_area_fraction times total_pixels
is exactly 1) the thresholded mask holds a single vegetated blob of exactly
one pixel — one pixel more than min_area_fraction * total_pixels - 1 = 0 —
yet the final mask is empty: the 5x5 opening erases the blob before the
region filter even runs, so the one-pixel-larger blob does not survive. -/
theorem spec_c6_region_survival_cex :
    countTrue (thresholdMask (calculate_ndvi img10).1
      defaultSegConfig.vegetation_index_threshold) = 1 ∧
    minArea img10 defaultSegConfig = 1 ∧
    (detect_vegetation img10 (calculate_ndvi img10).1 defaultSegConfig).2.vegetation_pixels = 0 := by
  have hthr : defaultSegConfig.vegetation_index_threshold = 3 / 10 := rfl
  have hcell : ∀ i j : ℕ,
      decide ((3 : ℚ) / 10 < ndviPixel (if i = 5 ∧ j = 5 then ⟨0, 255, 0⟩ else ⟨255, 0, 0⟩)) =
        decide (i = 5 ∧ j = 5) := by
    intro i j
    by_cases h5 : i = 5 ∧ j = 5
    · have h1 : (3 / 10 : ℚ) < ndviPixel ⟨0, 255, 0⟩ := by
        rw [ndviPixel_eq]
        norm_num
      rw [if_pos h5]
      exact decide_eq_decide.mpr (iff_of_true h1 h5)
    · have h1 : ¬ ((3 / 10 : ℚ) < ndviPixel ⟨255, 0, 0⟩) := by
        rw [ndviPixel_eq]
        norm_num
      rw [if_neg h5]
      exact decide_eq_decide.mpr (iff_of_false h1 h5)
  have hmask : thresholdMask (calculate_ndvi img10).1 (3 / 10 : ℚ) =
      (List.range 10).map fun i => (List.range 10).map fun j => decide (i = 5 ∧ j = 5) := by
    unfold img10 calculate_ndvi thresholdMask
    simp only [List.map_map, Function.comp_def]
    apply List.map_congr_left
    intro i _
    apply List.map_congr_left
    intro j _
    exact hcell i j
  have hclean10 : morphOpen (morphClose ((List.range 10).map fun i =>
      (List.range 10).map fun j => decide (i = 5 ∧ j = 5))) =
      (List.range 10).map fun _ => (List.range 10).map fun _ => false := by
    decide
  have hvc : validContours img10 (calculate_ndvi img10).1 defaultSegConfig = [] := by
    unfold validContours cleanedMask
    rw [hthr, hmask, hclean10]
    decide
  have hfm10 : finalMask img10 (calculate_ndvi img10).1 defaultSegConfig =
      (List.range 10).map fun _ => (List.range 10).map fun _ => false := by
    unfold finalMask
    rw [hvc]
    unfold cleanedMask
    rw [hthr, hmask, hclean10]
    decide
  refine ⟨?_, ?_, ?_⟩
  · rw [hthr, hmask]
    decide
  · unfold minArea
    rw [show img10.length = 10 from by decide, show gridWidth img10 = 10 from by decide,
      show defaultSegConfig.min_vegetation_area = 1 / 100 from rfl]
    norm_num
  · simp only [detect_vegetation]
    rw [hfm10]
    decide

/-- Claim C6 amended: the final mask of detect_vegetation contains only cells
of surviving regions, where a region of the cleaned mask survives exactly when
its area strictly exceeds min_area_fraction * total_pixels; a blob of exactly
min_area_fraction * total_pixels - 1 pixels is discarded, and a blob one pixel
larger need not survive, because the preceding 5x5 closing and opening can
erase it entirely, as the counterexample with the blob at the exact threshold
size shows. -/
theorem spec_c6_amended_region_filtering (image : RasterImage) (ndvi : Grid)
    (cfg : SegConfig) (i j : ℕ)
    (h : ((finalMask image ndvi cfg).getD i []).getD j false = true) :
    ∃ c ∈ validContours image ndvi cfg,
      (i, j) ∈ c ∧ minArea image cfg < contourArea c := by
  unfold finalMask fillRegions at h
  rw [buildMask_getD] at h
  split at h
  · rcases List.any_eq_true.mp h with ⟨c, hc, hpc⟩
    have hc2 := hc
    unfold validContours at hc2
    have hprop := (List.mem_filter.mp hc2).2
    exact ⟨c, hc, of_decide_eq_true hpc, of_decide_eq_true hprop⟩
  · exact absurd h (by simp)

theorem spec_c6_witness :
    ((finalMask imgGreen1 (calculate_ndvi imgGreen1).1 defaultSegConfig).getD 0 []).getD 0
        false = true ∧
    ∃ c ∈ validContours imgGreen1 (calculate_ndvi imgGreen1).1 defaultSegConfig,
      (0, 0) ∈ c ∧ minArea imgGreen1 defaultSegConfig < contourArea c := by
  have hthr : defaultSegConfig.vegetation_index_threshold = 3 / 10 := rfl
  have hmask : thresholdMask (calculate_ndvi imgGreen1).1 (3 / 10 : ℚ) = [[true]] := by
    have h1 : (3 / 10 : ℚ) < ndviPixel ⟨0, 255, 0⟩ := by
      rw [ndviPixel_eq]
      norm_num
    simp [thresholdMask, calculate_ndvi, imgGreen1, h1]
  have hclean1 : morphOpen (morphClose ([[true]] : Mask)) = [[true]] := by decide
  have harea : minArea imgGreen1 defaultSegConfig < contourArea [(0, 0)] := by
    unfold minArea contourArea
    rw [show imgGreen1.length = 1 from by decide, show gridWidth imgGreen1 = 1 from by decide,
      show defaultSegConfig.min_vegetation_area = 1 / 100 from rfl]
    norm_num
  have hvc : validContours imgGreen1 (calculate_ndvi imgGreen1).1 defaultSegConfig =
      [[(0, 0)]] := by
    unfold validContours cleanedMask
    rw [hthr, hmask, hclean1]
    rw [show findContoursExt ([[true]] : Mask) = [[(0, 0)]] from by decide]
    simp only [List.filter_cons, List.filter_nil]
    rw [decide_eq_true harea]
    simp
  have hfm : finalMask imgGreen1 (calculate_ndvi imgGreen1).1 defaultSegConfig = [[true]] := by
    unfold finalMask
    rw [hvc]
    unfold cleanedMask
    rw [hthr, hmask, hclean1]
    decide
  have h : ((finalMask imgGreen1 (calculate_ndvi imgGreen1).1 defaultSegConfig).getD 0 []).getD 0
      false = true := by
    rw [hfm]
    rfl
  exact ⟨h, spec_c6_amended_region_filtering imgGreen1 _ defaultSegConfig 0 0 h⟩

/-- Claim C7: with a fixed non-negative ground area and positive configured
constants, the returned CO2 figures (kg and tons, both rounded) are
monotonically non-decreasing in coverage and in density over [0, 1]. -/
theorem spec_c7_co2_monotone (cfg : CO2Config) (area cov1 cov2 den1 den2 : ℚ)
    (harea : 0 ≤ area) (hm : 0 < cfg.vegetation_density_multiplier)
    (hc : 0 < cfg.co2_per_sqm) (hcov1 : 0 ≤ cov1) (hcov : cov1 ≤ cov2)
    (_hcov2 : cov2 ≤ 1) (hden1 : 0 ≤ den1) (hden : den1 ≤ den2) (_hden2 : den2 ≤ 1) :
    (estimate_co2_sequestration cfg cov1 den1 area).co2_sequestered_kg ≤
      (estimate_co2_sequestration cfg cov2 den2 area).co2_sequestered_kg ∧
    (estimate_co2_sequestration cfg cov1 den1 area).co2_sequestered_tons ≤
      (estimate_co2_sequestration cfg cov2 den2 area).co2_sequestered_tons := by
  have hraw : area * cov1 * den1 * cfg.vegetation_density_multiplier * cfg.co2_per_sqm ≤
      area * cov2 * den2 * cfg.vegetation_density_multiplier * cfg.co2_per_sqm := by
    have h1 : area * cov1 * den1 ≤ area * cov2 * den2 := by
      have s1 : area * cov1 ≤ area * cov2 := mul_le_mul_of_nonneg_left hcov harea
      have s2 : area * cov1 * den1 ≤ area * cov2 * den1 := mul_le_mul_of_nonneg_right s1 hden1
      have s3 : area * cov2 * den1 ≤ area * cov2 * den2 :=
        mul_le_mul_of_nonneg_left hden (mul_nonneg harea (le_trans hcov1 hcov))
      linarith
    have h2 := mul_le_mul_of_nonneg_right h1 (le_of_lt hm)
    exact mul_le_mul_of_nonneg_right h2 (le_of_lt hc)
  simp only [estimate_co2_sequestration]
  constructor
  · exact pyRound_mono 2 hraw
  · exact pyRound_mono 4 (by linarith)

theorem spec_c7_witness :
    (0 : ℚ) ≤ 100 ∧ 0 < defaultCO2Config.vegetation_density_multiplier ∧
    0 < defaultCO2Config.co2_per_sqm ∧ (1 / 4 : ℚ) ≤ 1 / 2 ∧ (1 / 5 : ℚ) ≤ 3 / 5 ∧
    (estimate_co2_sequestration defaultCO2Config (1 / 4) (1 / 5) 100).co2_sequestered_kg ≤
      (estimate_co2_sequestration defaultCO2Config (1 / 2) (3 / 5) 100).co2_sequestered_kg ∧
    (estimate_co2_sequestration defaultCO2Config (1 / 4) (1 / 5) 100).co2_sequestered_tons ≤
      (estimate_co2_sequestration defaultCO2Config (1 / 2) (3 / 5) 100).co2_sequestered_tons := by
  have h := spec_c7_co2_monotone defaultCO2Config 100 (1 / 4) (1 / 2) (1 / 5) (3 / 5)
    (by norm_num) (by norm_num [defaultCO2Config]) (by norm_num [defaultCO2Config])
    (by norm_num) (by norm_num) (by norm_num) (by norm_num) (by norm_num) (by norm_num)
  exact ⟨by norm_num, by norm_num [defaultCO2Config], by norm_num [defaultCO2Config],
    by norm_num, by norm_num, h.1, h.2⟩

theorem rhe_intCast (n : ℤ) : rhe ((n : ℚ)) = n := by
  unfold rhe
  rw [Int.fract_intCast]
  norm_num

/-- Claim C8 counterexample: the biomass coefficients are not configurable.
At the concrete index grid [[1]] and ground area 1000, the source function
estimate_biomass agrees with the spec-worded configurable formula
estimate_biomass_spec only at the hard-coded instance a = 5/2, b = 2, and
differs from it at the alternative configuration a = 1, b = 2: the source has
no coefficient parameter and no Config entry (ai_model.py lines 290-291 bind
a and b as local literals), so no configuration can make it produce any other
instance of the formula. -/
theorem spec_c8_hardcoded_coefficients_cex :
    estimate_biomass [[1]] 1000 = estimate_biomass_spec (5 / 2) 2 [[1]] 1000 ∧
    estimate_biomass [[1]] 1000 ≠ estimate_biomass_spec 1 2 [[1]] 1000 := by
  constructor
  · rfl
  · intro hEq
    have h1 : (estimate_biomass [[1]] 1000).biomass_per_sqm_kg =
        (estimate_biomass_spec 1 2 [[1]] 1000).biomass_per_sqm_kg := by rw [hEq]
    have hm : npMean [[1]] = 1 := by norm_num [npMean, gridSum, gridCount]
    simp only [estimate_biomass, estimate_biomass_spec, hm] at h1
    rw [show (5 / 2 : ℚ) * (1 : ℚ) ^ (2 : ℕ) = ((5 : ℚ) / 2) from by norm_num,
      show (1 : ℚ) * (1 : ℚ) ^ (2 : ℕ) = 1 from by norm_num] at h1
    unfold pyRound at h1
    rw [show ((5 : ℚ) / 2) * 10 ^ 2 = ((250 : ℤ) : ℚ) from by norm_num,
      show (1 : ℚ) * 10 ^ 2 = ((100 : ℤ) : ℚ) from by norm_num,
      rhe_intCast, rhe_intCast] at h1
    norm_num at h1

/-- Claim C8 amended: estimate_biomass computes biomass_per_sqm as
a * mean_index ^ b with a = 2.5 and b = 2.0 as hard-coded literal constants
(not configurable: the function takes no coefficient parameters and Config has
no entry for them), total_biomass_kg as biomass_per_sqm * ground_area and
total_biomass_tons as total_biomass_kg / 1000, for every index grid and every
ground area; the returned fields carry the fixed roundings of the source. -/
theorem spec_c8_biomass_formula (ndvi : Grid) (image_area : ℚ) :
    estimate_biomass ndvi image_area =
      { biomass_per_sqm_kg := pyRound 2 (5 / 2 * npMean ndvi ^ (2 : ℕ)),
        total_biomass_kg := pyRound 2 (5 / 2 * npMean ndvi ^ (2 : ℕ) * image_area),
        total_biomass_tons := pyRound 4 (5 / 2 * npMean ndvi ^ (2 : ℕ) * image_area / 1000),
        ndvi_coefficient := pyRound 3 (npMean ndvi),
        estimation_confidence := "medium" } := rfl

/-- Claim C10: every numeric field returned by the two estimation functions is
the fixed-precision rounding of the corresponding raw formula value:
co2_sequestered_kg to 2 decimals, co2_sequestered_tons to 4,
vegetation_coverage_percent to 2, vegetation_density_score to 3,
biomass_per_sqm_kg and total_biomass_kg to 2, total_biomass_tons to 4. -/
theorem spec_c10_rounding (cfg : CO2Config) (coverage density area : ℚ)
    (ndvi : Grid) (barea : ℚ) :
    (estimate_co2_sequestration cfg coverage density area).co2_sequestered_kg =
      pyRound 2 (area * coverage * density * cfg.vegetation_density_multiplier *
        cfg.co2_per_sqm) ∧
    (estimate_co2_sequestration cfg coverage density area).co2_sequestered_tons =
      pyRound 4 (area * coverage * density * cfg.vegetation_density_multiplier *
        cfg.co2_per_sqm / 1000) ∧
    (estimate_co2_sequestration cfg coverage density area).vegetation_coverage_percent =
      pyRound 2 (coverage * 100) ∧
    (estimate_co2_sequestration cfg coverage density area).vegetation_density_score =
      pyRound 3 density ∧
    (estimate_biomass ndvi barea).biomass_per_sqm_kg =
      pyRound 2 (5 / 2 * npMean ndvi ^ (2 : ℕ)) ∧
    (estimate_biomass ndvi barea).total_biomass_kg =
      pyRound 2 (5 / 2 * npMean ndvi ^ (2 : ℕ) * barea) ∧
    (estimate_biomass ndvi barea).total_biomass_tons =
      pyRound 4 (5 / 2 * npMean ndvi ^ (2 : ℕ) * barea / 1000) :=
  ⟨rfl, rfl, rfl, rfl, rfl, rfl, rfl⟩

/-- Claim C9 counterexample: when the model file is missing, load_model
silently builds the default CNN substitute and process_with_ai proceeds to
produce its health and type fields from that substitute model — here the
health category comes out "Poor", not "unavailable", and no classical-only
fallback occurs; and when even the default-model creation fails, the error
propagates out of process_with_ai (re-raised at line 349) instead of
degrading. -/
theorem spec_c9_fallback_cex :
    healthCategoryOf (process_with_ai false true true (fun _ => 0) id imgBlack2 1000
      (7 / 10)) = some "Poor" ∧
    some "Poor" ≠ some "unavailable" ∧
    process_with_ai false true false (fun _ => 0) id imgBlack2 1000 (7 / 10) =
      .error "create_default_failed" := by
  refine ⟨?_, by simp, rfl⟩
  norm_num [process_with_ai, load_model, healthCategoryOf, enhance_ndvi_calculation,
    imgBlack2, ndvi1Pixel, ndvi2Pixel, analyze_vegetation_health, npMean, gridSum,
    gridCount]

/-- Claim C9 amended: when the classifier model fails to come up (missing
model file or load exception), the code does not fall back to classical-only
statistics and marks nothing "unavailable": load_model installs a freshly
created default CNN substitute, process_with_ai completes normally with its
health category drawn from the four ordinary buckets and its reported
probability produced by the substitute model; and if even the default-model
creation fails, process_with_ai propagates the error and aborts that image. -/
theorem spec_c9_amended_substitute_model (fe lo : Bool) (classify : ModelKind → ℚ)
    (smooth : Grid → Grid) (image : RasterImage) (image_area t : ℚ)
    (h : fe = false ∨ lo = false) :
    load_model fe lo true = .ok ⟨.defaultCNN, !fe⟩ ∧
    healthCategoryOf (process_with_ai fe lo true classify smooth image image_area t) ∈
      ([some "Excellent", some "Good", some "Fair", some "Poor"] : List (Option String)) ∧
    aiProbOf (process_with_ai fe lo true classify smooth image image_area t) =
      some (pyRound 3 (classify .defaultCNN)) ∧
    process_with_ai fe lo false classify smooth image image_area t =
      .error "create_default_failed" := by
  have hload : load_model fe lo true = .ok ⟨.defaultCNN, !fe⟩ := by
    rcases h with h | h
    · subst h
      rfl
    · subst h
      cases fe <;> rfl
  have hfail : load_model fe lo false = Except.error "create_default_failed" := by
    rcases h with h | h
    · subst h
      rfl
    · subst h
      cases fe <;> rfl
  refine ⟨hload, ?_, ?_, ?_⟩
  · simp only [process_with_ai, hload, healthCategoryOf]
    have hm := health_category_mem (classify ModelKind.defaultCNN)
      (enhance_ndvi_calculation smooth image)
    simp only [List.mem_cons, List.not_mem_nil, or_false] at hm ⊢
    rcases hm with h1 | h1 | h1 | h1 <;> simp [h1]
  · simp only [process_with_ai, hload, aiProbOf]
    rfl
  · simp only [process_with_ai, hfail]

theorem spec_c9_witness :
    ((false : Bool) = false ∨ (true : Bool) = false) ∧
    load_model false true true = .ok ⟨.defaultCNN, !false⟩ ∧
    healthCategoryOf (process_with_ai false true true (fun _ => (0 : ℚ)) id imgBlack2 1000
      (7 / 10)) ∈
      ([some "Excellent", some "Good", some "Fair", some "Poor"] : List (Option String)) ∧
    aiProbOf (process_with_ai false true true (fun _ => (0 : ℚ)) id imgBlack2 1000
      (7 / 10)) = some (pyRound 3 ((fun _ => (0 : ℚ)) ModelKind.defaultCNN)) ∧
    process_with_ai false true false (fun _ => (0 : ℚ)) id imgBlack2 1000 (7 / 10) =
      .error "create_default_failed" :=
  ⟨Or.inl rfl, spec_c9_amended_substitute_model false true (fun _ => 0) id imgBlack2 1000
    (7 / 10) (Or.inl rfl)⟩
